import Mathlib

/-!
Verification development for the `pact-rectification` repository: a library of
closed-form distillation-column correlations (files
`rectification/equations/masstransfer_coeffcient.py` and
`rectification/equations/pump_reflux.py`) whose functions are wrapped by a
unit-checking decorator `unitcheck` imported from `rectification.utils`.

The formula bodies are embedded directly from the two source files.  The
`unitcheck` decorator and its unit-expression normalizer live in
`rectification.utils`, which is not part of the provided sources; those parts
are modelled from the specification (sections 3, 4.1, 4.2, 6, 7) and each such
definition is marked `Modelled from the spec:` in its doc comment.

Python floats are embedded as `ℚ` where the formula body is field arithmetic,
and as `ℝ` where the body uses fractional powers, `np.exp` or `np.log`.
-/

/-- Modelled from the spec: the canonical form of a unit expression, a vector of
integer exponents over the fixed base physical dimensions (mass, length, time,
amount of substance, temperature).  The normalizer in `rectification.utils` is
not in the provided sources; the spec (section 4.1) describes its codomain as
"a vector of integer/rational exponents over a fixed set of base physical
dimensions". -/
structure Dim where
  mass : Int
  length : Int
  time : Int
  amount : Int
  temp : Int
deriving DecidableEq, Repr

/-- The zero vector of exponents: the canonical form of a dimensionless unit. -/
def dimZero : Dim := ⟨0, 0, 0, 0, 0⟩

/-- Pointwise sum of exponent vectors (multiplication of units). -/
def dimAdd (a b : Dim) : Dim :=
  ⟨a.mass + b.mass, a.length + b.length, a.time + b.time,
   a.amount + b.amount, a.temp + b.temp⟩

/-- Pointwise difference of exponent vectors (division of units). -/
def dimSub (a b : Dim) : Dim :=
  ⟨a.mass - b.mass, a.length - b.length, a.time - b.time,
   a.amount - b.amount, a.temp - b.temp⟩

/-- Pointwise integer scaling of an exponent vector (raising a unit to a
power). -/
def dimSmul (k : Int) (a : Dim) : Dim :=
  ⟨k * a.mass, k * a.length, k * a.time, k * a.amount, k * a.temp⟩

/-- Modelled from the spec: the dimension of each base unit symbol.  The spec
(section 6) fixes the vocabulary `kg`, `m`, `s`, `Pa`, `N`, `W`, `kmol`, `K`;
the schemas in the two source files additionally use `g`, `mol`, `sm`
(centimetre), `h` (hour), `turnover` (a count, dimensionless) and the literal
`dimensionless`.  An unrecognized symbol yields `none` (the spec's
`UnknownUnitError`). -/
def baseSym : String → Option Dim
  | "kg" => some ⟨1, 0, 0, 0, 0⟩
  | "g" => some ⟨1, 0, 0, 0, 0⟩
  | "m" => some ⟨0, 1, 0, 0, 0⟩
  | "sm" => some ⟨0, 1, 0, 0, 0⟩
  | "s" => some ⟨0, 0, 1, 0, 0⟩
  | "h" => some ⟨0, 0, 1, 0, 0⟩
  | "mol" => some ⟨0, 0, 0, 1, 0⟩
  | "kmol" => some ⟨0, 0, 0, 1, 0⟩
  | "K" => some ⟨0, 0, 0, 0, 1⟩
  | "Pa" => some ⟨1, -1, -2, 0, 0⟩
  | "N" => some ⟨1, 1, -2, 0, 0⟩
  | "W" => some ⟨1, 2, -3, 0, 0⟩
  | "turnover" => some dimZero
  | "dimensionless" => some dimZero
  | _ => none

/-- Tokens of a unit-expression string: a unit symbol, `*`, `**`, `/`, or an
integer exponent (possibly negative). -/
inductive UTok where
  | sym (s : String)
  | mul
  | pow
  | div
  | num (n : Int)
deriving DecidableEq, Repr

/-- Numeric value of a digit run. -/
def natOfDigits (ds : List Char) : Nat :=
  ds.foldl (fun acc c => acc * 10 + (c.toNat - 48)) 0

/-- Modelled from the spec: tokenizer for unit-expression strings built from
unit symbols, `*`, `/`, `**` and integer exponents (spec section 4.1 input
constraints).  Fuel-indexed; each step consumes at least one character, so fuel
`input.length + 1` always suffices.  Any other character makes the expression
unparsable (`none`). -/
def tokenizeAux : Nat → List Char → Option (List UTok)
  | 0, _ => none
  | _ + 1, [] => some []
  | fuel + 1, c :: cs =>
    if c.isAlpha then
      let run := (c :: cs).takeWhile Char.isAlpha
      let rest := (c :: cs).dropWhile Char.isAlpha
      (tokenizeAux fuel rest).map (UTok.sym (String.mk run) :: ·)
    else if c = '*' then
      match cs with
      | '*' :: rest => (tokenizeAux fuel rest).map (UTok.pow :: ·)
      | _ => (tokenizeAux fuel cs).map (UTok.mul :: ·)
    else if c = '/' then
      (tokenizeAux fuel cs).map (UTok.div :: ·)
    else if c = '-' then
      let ds := cs.takeWhile Char.isDigit
      let rest := cs.dropWhile Char.isDigit
      if ds = [] then none
      else (tokenizeAux fuel rest).map (UTok.num (-(natOfDigits ds : Int)) :: ·)
    else if c.isDigit then
      let ds := (c :: cs).takeWhile Char.isDigit
      let rest := (c :: cs).dropWhile Char.isDigit
      (tokenizeAux fuel rest).map (UTok.num (natOfDigits ds : Int) :: ·)
    else none

/-- Tokenize a unit-expression string. -/
def tokenizeUnit (s : String) : Option (List UTok) :=
  tokenizeAux (s.data.length + 1) s.data

/-- Modelled from the spec: parse one factor of a unit expression — a unit
symbol optionally raised to an integer power — returning its dimension and the
remaining tokens. -/
def parseFactor : List UTok → Option (Dim × List UTok)
  | UTok.sym s :: UTok.pow :: UTok.num n :: rest =>
    match baseSym s with
    | some d => some (dimSmul n d, rest)
    | none => none
  | UTok.sym s :: rest =>
    match baseSym s with
    | some d => some (d, rest)
    | none => none
  | _ => none

/-- Modelled from the spec: fold the remaining `* factor` / `/ factor` steps of
a unit expression onto an accumulated dimension (multiplication adds exponent
vectors, division subtracts them). -/
def parseUnitAux : Nat → Dim → List UTok → Option Dim
  | _, acc, [] => some acc
  | 0, _, _ => none
  | fuel + 1, acc, UTok.mul :: rest =>
    match parseFactor rest with
    | some (d, rest2) => parseUnitAux fuel (dimAdd acc d) rest2
    | none => none
  | fuel + 1, acc, UTok.div :: rest =>
    match parseFactor rest with
    | some (d, rest2) => parseUnitAux fuel (dimSub acc d) rest2
    | none => none
  | _ + 1, _, _ => none

/-- Modelled from the spec: parse and normalize a unit-expression string into
its canonical exponent vector over the base dimensions (spec section 4.1).
`none` corresponds to the spec's `UnknownUnitError`: an unrecognized symbol or
an unparsable expression. -/
def normalizeUnit (s : String) : Option Dim :=
  match tokenizeUnit s with
  | none => none
  | some toks =>
    match parseFactor toks with
    | some (d, rest) => parseUnitAux (rest.length + 1) d rest
    | none => none

/-- Modelled from the spec: `PhysicalQuantity` (spec section 3) — a numeric
magnitude paired with a unit-expression string.  The magnitude type `α` is `ℚ`
for formula bodies that are field arithmetic and `ℝ` for bodies using
fractional powers or `np.exp`. -/
structure Quantity (α : Type) where
  magnitude : α
  unit : String
deriving DecidableEq, Repr

/-- Modelled from the spec: the error taxonomy of the unit-contract layer
(spec section 7): `UnitMismatchError` carries the offending parameter name, its
actual unit and the expected unit; `UnknownUnitError` an unparsable unit
expression; `MissingArgumentError` a required declared argument absent from the
call. -/
inductive UnitError where
  | unitMismatch (param actual expected : String)
  | unknownUnit (expr : String)
  | missingArgument (param : String)
deriving DecidableEq, Repr

/-- Modelled from the spec: the value a wrapped call returns — the formula
body's numeric result, tagged with the schema's `res_unit` when one is
declared, unannotated (`none`) otherwise (spec section 4.2 item 5). -/
structure CallResult (α : Type) where
  magnitude : α
  unit : Option String
deriving DecidableEq, Repr

/-- A schema (spec section 3, `UnitSchema`): parameter name ↦ expected
unit-expression string.  The `res_unit` entry is kept separately as an
`Option String`. -/
abbrev UnitSchema : Type := List (String × String)

/-- Look up the declared unit of a parameter name in a schema. -/
def schemaLookup (n : String) (schema : UnitSchema) : Option String :=
  (schema.find? (fun p => p.1 = n)).map (fun p => p.2)

/-- Modelled from the spec: argument validation of the unit-contract decorator
(spec section 4.2 items 2, 3, 6).  Each supplied argument whose name the
schema declares has its unit normalized and compared with the schema's
normalized expectation; the first mismatch aborts with `UnitMismatchError`
naming the parameter, its actual unit and the expected unit; arguments absent
from the schema pass through without unit validation. -/
def checkArgs {α : Type} (schema : UnitSchema) :
    List (String × Quantity α) → Except UnitError Unit
  | [] => Except.ok ()
  | p :: rest =>
    match schemaLookup p.1 schema with
    | none => checkArgs schema rest
    | some expected =>
      match normalizeUnit expected, normalizeUnit p.2.unit with
      | none, _ => Except.error (UnitError.unknownUnit expected)
      | some _, none => Except.error (UnitError.unknownUnit p.2.unit)
      | some de, some da =>
        if da = de then checkArgs schema rest
        else Except.error (UnitError.unitMismatch p.1 p.2.unit expected)

/-- The bare (name, magnitude) view of a call's arguments: what the wrapped
formula body is applied to once validation passes. -/
def bareArgs {α : Type} (args : List (String × Quantity α)) : List (String × α) :=
  args.map (fun p => (p.1, p.2.magnitude))

/-- Modelled from the spec: the unit-contract wrapper around one formula call
(spec section 4.2).  It validates the supplied arguments against the schema,
and only if every check passes applies the formula body `f` to the bare
magnitudes; the result is tagged with `res_unit` when the schema declares one
and returned unannotated otherwise.  On a mismatch the body is never applied
(fail fast, no partial computation). -/
def unitcheckCall {α : Type} (schema : UnitSchema) (resUnit : Option String)
    (f : List (String × α) → α) (args : List (String × Quantity α)) :
    Except UnitError (CallResult α) :=
  match checkArgs schema args with
  | Except.error e => Except.error e
  | Except.ok () =>
    match resUnit with
    | none => Except.ok ⟨f (bareArgs args), none⟩
    | some u =>
      match normalizeUnit u with
      | none => Except.error (UnitError.unknownUnit u)
      | some _ => Except.ok ⟨f (bareArgs args), some u⟩

/-- Bind a named argument list to one parameter name, defaulting to `0` when
the name is absent (the embedding of Python keyword-argument binding for the
formula bodies below; every call site in the theorems supplies all names). -/
def getArg {α : Type} [Zero α] (args : List (String × α)) (n : String) : α :=
  match args.find? (fun p => p.1 = n) with
  | some p => p.2
  | none => 0

/-- `true` iff the schema's expectation for this argument (when it has one) and
the argument's own unit both parse.  Arguments the schema does not declare are
vacuously fine. -/
def unitsKnownAt {α : Type} (schema : UnitSchema) (p : String × Quantity α) : Bool :=
  match schemaLookup p.1 schema with
  | none => true
  | some expected => (normalizeUnit expected).isSome && (normalizeUnit p.2.unit).isSome

/-- `true` iff the schema declares a unit for this argument and the argument's
normalized unit differs from the normalized expectation. -/
def mismatchAt {α : Type} (schema : UnitSchema) (p : String × Quantity α) : Bool :=
  match schemaLookup p.1 schema with
  | none => false
  | some expected => !(decide (normalizeUnit p.2.unit = normalizeUnit expected))

/-- `true` iff the schema's expectation for this argument (when it has one)
parses and the argument's unit normalizes to exactly that expectation. -/
def validAt {α : Type} (schema : UnitSchema) (p : String × Quantity α) : Bool :=
  match schemaLookup p.1 schema with
  | none => true
  | some expected =>
    match normalizeUnit expected, normalizeUnit p.2.unit with
    | some de, some da => decide (da = de)
    | _, _ => false

/-- `true` iff the declared result unit (when there is one) parses. -/
def resUnitOk (resUnit : Option String) : Bool :=
  match resUnit with
  | none => true
  | some u => (normalizeUnit u).isSome

/-- `scipy.constants.g`, the standard gravitational acceleration imported at
the top of both source files: 9.80665 m/s**2. -/
def g : ℚ := 980665 / 100000

/-- `sigma_top` body (masstransfer_coeffcient.py line 27): surface tension of
the mix at the top of the column. -/
def sigma_top (sigma_lc_top sigma_hc_top x_aver_top_mass : ℚ) : ℚ :=
  sigma_lc_top * x_aver_top_mass + (1 - x_aver_top_mass) * sigma_hc_top

/-- `sigma_bot` body (masstransfer_coeffcient.py line 50). -/
def sigma_bot (sigma_lc_bot sigma_hc_bot x_aver_bot_mass : ℚ) : ℚ :=
  sigma_lc_bot * x_aver_bot_mass + (1 - x_aver_bot_mass) * sigma_hc_bot

/-- Schema of the `@unitcheck` decoration of `sigma_top`
(masstransfer_coeffcient.py line 7). -/
def sigma_top_schema : UnitSchema :=
  [("sigma_lc_top", "N/m"), ("sigma_hc_top", "N/m"), ("x_aver_top_mass", "kmol/kmol")]

/-- The unit-checked (wrapped) `sigma_top`, with `res_unit="N/m"`. -/
def sigma_top_wrapped (args : List (String × Quantity ℚ)) :
    Except UnitError (CallResult ℚ) :=
  unitcheckCall sigma_top_schema (some "N/m")
    (fun a => sigma_top (getArg a "sigma_lc_top") (getArg a "sigma_hc_top")
      (getArg a "x_aver_top_mass")) args

/-- `heigth_layer_top` body (masstransfer_coeffcient.py line 82), over `ℝ`
because of the fractional powers and `np.exp`. -/
noncomputable def heigth_layer_top
    (q_liq_top h_septum w_oper m_coef mu_liq_top sigma_top sigma_water_top : ℝ) : ℝ :=
  0.787 * q_liq_top ^ (0.2 : ℝ) * h_septum ^ (0.56 : ℝ) * w_oper ^ m_coef *
    (1 - 0.31 * Real.exp (-0.11 * mu_liq_top)) *
    (sigma_top / sigma_water_top) ^ (0.09 : ℝ)

/-- Schema of the `@unitcheck` decoration of `heigth_layer_top`
(masstransfer_coeffcient.py line 54).  Note: it names `sigma_mix` and
`sigma_water`, which are not parameters of the function, and omits `m_coef`,
`sigma_top` and `sigma_water_top`, which are. -/
def heigth_layer_top_schema : UnitSchema :=
  [("q_liq_top", "m**2/s"), ("h_septum", "m"), ("w_oper", "m/s"),
   ("mu_liq_top", "Pa/s"), ("sigma_mix", "N/m"), ("sigma_water", "N/m")]

/-- The unit-checked (wrapped) `heigth_layer_top`, with `res_unit="m"`. -/
noncomputable def heigth_layer_top_wrapped (args : List (String × Quantity ℝ)) :
    Except UnitError (CallResult ℝ) :=
  unitcheckCall heigth_layer_top_schema (some "m")
    (fun a => heigth_layer_top (getArg a "q_liq_top") (getArg a "h_septum")
      (getArg a "w_oper") (getArg a "m_coef") (getArg a "mu_liq_top")
      (getArg a "sigma_top") (getArg a "sigma_water_top")) args

/-- `q_liq_top` body (masstransfer_coeffcient.py line 154): specific liquid
flow rate per metre of drain septum. -/
def q_liq_top (rho_top_liq L_septum L_top : ℚ) : ℚ :=
  L_top / (rho_top_liq * L_septum)

/-- Schema of the `@unitcheck` decoration of `q_liq_top`
(masstransfer_coeffcient.py line 134). -/
def q_liq_top_schema : UnitSchema :=
  [("rho_top_liq", "kg/m**3"), ("L_top", "kg/s"), ("L_septum", "m")]

/-- The unit-checked (wrapped) `q_liq_top`, with `res_unit="m**2/s"`. -/
def q_liq_top_wrapped (args : List (String × Quantity ℚ)) :
    Except UnitError (CallResult ℚ) :=
  unitcheckCall q_liq_top_schema (some "m**2/s")
    (fun a => q_liq_top (getArg a "rho_top_liq") (getArg a "L_septum")
      (getArg a "L_top")) args

/-- `epsi_vapor_top` body (masstransfer_coeffcient.py line 195): vapor content
of the bubble layer, `Fr**0.5 / (1 + Fr**0.5)`. -/
noncomputable def epsi_vapor_top (Fr_top : ℝ) : ℝ :=
  Fr_top ^ (0.5 : ℝ) / (1 + Fr_top ^ (0.5 : ℝ))

/-- `epsi_vapor_bot` body (masstransfer_coeffcient.py line 213). -/
noncomputable def epsi_vapor_bot (Fr_bot : ℝ) : ℝ :=
  Fr_bot ^ (0.5 : ℝ) / (1 + Fr_bot ^ (0.5 : ℝ))

/-- `Fr_top` body (masstransfer_coeffcient.py line 234): Froude criterion,
using the imported `scipy.constants.g`. -/
def Fr_top (w_oper_top heigth_layer_top : ℚ) : ℚ :=
  w_oper_top ^ 2 / (g * heigth_layer_top)

/-- `Fr_bot` body (masstransfer_coeffcient.py line 255). -/
def Fr_bot (w_oper_bot heigth_layer_bot : ℚ) : ℚ :=
  w_oper_bot ^ 2 / (g * heigth_layer_bot)

/-- `h_bubble_top` body (masstransfer_coeffcient.py line 318): bubble-layer
height `heigth_layer_top / (1 - epsi_vapor_top)`. -/
noncomputable def h_bubble_top (heigth_layer_top epsi_vapor_top : ℝ) : ℝ :=
  heigth_layer_top / (1 - epsi_vapor_top)

/-- `h_bubble_bot` body (masstransfer_coeffcient.py line 339). -/
noncomputable def h_bubble_bot (heigth_layer_bot epsi_vapor_bot : ℝ) : ℝ :=
  heigth_layer_bot / (1 - epsi_vapor_bot)

/-- `Diff_vapor` body (masstransfer_coeffcient.py line 441), over `ℝ` because
of the fractional powers (`**(3/2)` is `**1.5` under Python 3 division).  The
subterm `(nuh)*0.66` is a multiplication in the source (where `(nul)**0.66` is
a power) and is embedded exactly as written. -/
noncomputable def Diff_vapor (t_boil P_abs Massl Massh nul nuh : ℝ) : ℝ :=
  4.22e-2 * t_boil ^ ((3 : ℝ) / 2) * ((1 / Massl) + (1 / Massh)) ^ (0.5 : ℝ) /
    (P_abs * (nul ^ (0.66 : ℝ) + nuh * 0.66) ^ 2)

/-- Schema of the `@unitcheck` decoration of `Diff_vapor`
(masstransfer_coeffcient.py line 415). -/
def Diff_vapor_schema : UnitSchema :=
  [("t_boil", "K"), ("Massl", "g/mol"), ("Massh", "g/mol"), ("P_abs", "Pa"),
   ("nul", "sm**3/mol"), ("nuh", "sm**3/mol")]

/-- The unit-checked (wrapped) `Diff_vapor`, with `res_unit="m**2/s"`. -/
noncomputable def Diff_vapor_wrapped (args : List (String × Quantity ℝ)) :
    Except UnitError (CallResult ℝ) :=
  unitcheckCall Diff_vapor_schema (some "m**2/s")
    (fun a => Diff_vapor (getArg a "t_boil") (getArg a "P_abs")
      (getArg a "Massl") (getArg a "Massh") (getArg a "nul")
      (getArg a "nuh")) args

/-- `Q_volume_reflux` body (pump_reflux.py line 25): volume flow rate of
reflux, `reflux_mass / rho_reflux`. -/
def Q_volume_reflux (reflux_mass rho_reflux : ℚ) : ℚ :=
  reflux_mass / rho_reflux

/-- Schema of the `@unitcheck` decoration of `Q_volume_reflux`
(pump_reflux.py line 7).  Note: it names `rho_F`, which is not a parameter of
the function (the second parameter is `rho_reflux`). -/
def Q_volume_reflux_schema : UnitSchema :=
  [("reflux_mass", "kg/s"), ("rho_F", "kg/m**3")]

/-- The body function of the wrapped `Q_volume_reflux`. -/
def Q_volume_reflux_body (a : List (String × ℚ)) : ℚ :=
  Q_volume_reflux (getArg a "reflux_mass") (getArg a "rho_reflux")

/-- The unit-checked (wrapped) `Q_volume_reflux`, with `res_unit="m**3/h"`. -/
def Q_volume_reflux_wrapped (args : List (String × Quantity ℚ)) :
    Except UnitError (CallResult ℚ) :=
  unitcheckCall Q_volume_reflux_schema (some "m**3/h") Q_volume_reflux_body args

/-- `Re_reflux` body (pump_reflux.py line 120): Reynolds criterion of the
reflux line. -/
def Re_reflux (w_liq_real_enter_reflux rho_reflux d_enter_reflux_real mu_reflux : ℚ) : ℚ :=
  w_liq_real_enter_reflux * rho_reflux * d_enter_reflux_real / mu_reflux

/-- Schema of the `@unitcheck` decoration of `Re_reflux` (pump_reflux.py
line 98).  It declares no `res_unit`. -/
def Re_reflux_schema : UnitSchema :=
  [("w_liq_real_enter_reflux", "m/s"), ("rho_reflux", "kg/m**3"),
   ("d_enter_reflux_real", "m"), ("mu_reflux", "Pa/s")]

/-- The unit-checked (wrapped) `Re_reflux`; its schema has no `res_unit`, so
the wrapper's result is unannotated. -/
def Re_reflux_wrapped (args : List (String × Quantity ℚ)) :
    Except UnitError (CallResult ℚ) :=
  unitcheckCall Re_reflux_schema none
    (fun a => Re_reflux (getArg a "w_liq_real_enter_reflux")
      (getArg a "rho_reflux") (getArg a "d_enter_reflux_real")
      (getArg a "mu_reflux")) args

/-- `heigth_max_suction` body (pump_reflux.py line 247): maximum theoretical
suction height; here `g` is an explicit parameter of the function. -/
def heigth_max_suction (Pa rho_reflux_20 g P_satur_vapor_reflux
    w_liq_real_enter_reflux hydraulic_losses_suct_reflux
    heigth_cavitation_reflux : ℚ) : ℚ :=
  Pa / (rho_reflux_20 * g) -
    (P_satur_vapor_reflux / (rho_reflux_20 * g) +
      w_liq_real_enter_reflux / (2 * g) +
      hydraulic_losses_suct_reflux + heigth_cavitation_reflux)

/-- Schema of the `@unitcheck` decoration of `heigth_max_suction`
(pump_reflux.py line 221). -/
def heigth_max_suction_schema : UnitSchema :=
  [("Pa", "Pa"), ("rho_reflux_20", "kg/m**3"), ("g", "m/s**2"),
   ("P_satur_vapor_reflux", "Pa"), ("w_liq_real_enter_reflux", "m/s"),
   ("hydraulic_losses_suct_reflux", "m"), ("heigth_cavitation_reflux", "m")]

/-- The unit-checked (wrapped) `heigth_max_suction`, with `res_unit="m"`. -/
def heigth_max_suction_wrapped (args : List (String × Quantity ℚ)) :
    Except UnitError (CallResult ℚ) :=
  unitcheckCall heigth_max_suction_schema (some "m")
    (fun a => heigth_max_suction (getArg a "Pa") (getArg a "rho_reflux_20")
      (getArg a "g") (getArg a "P_satur_vapor_reflux")
      (getArg a "w_liq_real_enter_reflux")
      (getArg a "hydraulic_losses_suct_reflux")
      (getArg a "heigth_cavitation_reflux")) args

/-- A Python runtime value, as needed to evaluate the body of
`lyambda_rubbery_reflux` (pump_reflux.py line 95): a number or a tuple.  Python
floats are embedded as `ℚ`; no reachable step of that body needs an
irrational value. -/
inductive PyVal where
  | num (q : ℚ)
  | tuple (elems : List PyVal)

/-- A Python runtime error: `TypeError`, raised by an operator applied to
operands of unsupported type, or `ZeroDivisionError`, raised by division by
zero. -/
inductive PyErr where
  | typeError (msg : String)
  | zeroDivisionError (msg : String)
deriving DecidableEq, Repr

/-- Python `/` on the values occurring here: number division, raising
`ZeroDivisionError` at a zero denominator exactly as CPython does. -/
def pyDiv : PyVal → PyVal → Except PyErr PyVal
  | PyVal.num a, PyVal.num b =>
    if b = 0 then Except.error (PyErr.zeroDivisionError "division by zero")
    else Except.ok (PyVal.num (a / b))
  | _, _ => Except.error (PyErr.typeError "unsupported operand type(s) for /")

/-- Python `+` on the values occurring here: number addition and tuple
concatenation; a number and a tuple do not add. -/
def pyAdd : PyVal → PyVal → Except PyErr PyVal
  | PyVal.num a, PyVal.num b => Except.ok (PyVal.num (a + b))
  | PyVal.tuple a, PyVal.tuple b => Except.ok (PyVal.tuple (a ++ b))
  | _, _ => Except.error (PyErr.typeError "unsupported operand type(s) for +")

/-- Python `*` restricted to numbers (sequence repetition is not reachable in
the body below: evaluation fails before any multiplication). -/
def pyMul : PyVal → PyVal → Except PyErr PyVal
  | PyVal.num a, PyVal.num b => Except.ok (PyVal.num (a * b))
  | _, _ => Except.error (PyErr.typeError "unsupported operand type(s) for *")

/-- Python `**`: defined on numbers for integer exponents (the only exponents
occurring in the body below are `0`, `-1` and `2`); a tuple base raises
`TypeError`, which is the step the decimal-comma typo makes unavoidable. -/
def pyPow : PyVal → PyVal → Except PyErr PyVal
  | PyVal.num a, PyVal.num b =>
    if b.den = 1 then Except.ok (PyVal.num (a ^ b.num))
    else Except.error (PyErr.typeError "nonintegral exponent not represented")
  | _, _ => Except.error (PyErr.typeError "unsupported operand type(s) for ** or pow()")

/-- The body of `lyambda_rubbery_reflux` (pump_reflux.py line 95) exactly as
Python parses it.  The source line

`return ((- 2 * np.log((e_roughness_reflux/d_enter_reflux_real)/3,7 + (6,81/Re_reflux)**0,9))**(-1))**2`

is syntactically valid Python: the commas inside the call parentheses separate
arguments, so `np.log` receives the three arguments
`(e_roughness_reflux/d_enter_reflux_real)/3`, `7 + (6, 81/Re_reflux)**0` and
`9`, where `(6, 81/Re_reflux)` is a tuple display.  Python evaluates the
arguments left to right and each expression left to right: first
`e_roughness_reflux/d_enter_reflux_real` then `/3` (each a possible
`ZeroDivisionError`), then the tuple elements `6` and `81/Re_reflux` (another
possible `ZeroDivisionError`), and then `(6, 81/Re_reflux) ** 0` — a tuple
raised to a power — which raises `TypeError`, always before `np.log` is ever
applied.  `np.log` itself is therefore left abstract (`npLogFn`). -/
def lyambda_rubbery_reflux_eval
    (npLogFn : List PyVal → Except PyErr PyVal)
    (Re_reflux e_roughness_reflux d_enter_reflux_real : ℚ) :
    Except PyErr PyVal := do
  let q1 ← pyDiv (PyVal.num e_roughness_reflux) (PyVal.num d_enter_reflux_real)
  let a1 ← pyDiv q1 (PyVal.num 3)
  let q2 ← pyDiv (PyVal.num 81) (PyVal.num Re_reflux)
  let t := PyVal.tuple [PyVal.num 6, q2]
  let p ← pyPow t (PyVal.num 0)
  let a2 ← pyAdd (PyVal.num 7) p
  let a3 := PyVal.num 9
  let l ← npLogFn [a1, a2, a3]
  let m ← pyMul (PyVal.num (-2)) l
  let i ← pyPow m (PyVal.num (-1))
  pyPow i (PyVal.num 2)

/-- If every supplied argument either is undeclared in the schema or carries a
unit normalizing to the schema's expectation, validation succeeds. -/
lemma checkArgs_ok_of_all_valid {α : Type} (schema : UnitSchema) :
    ∀ args : List (String × Quantity α),
      args.all (validAt schema) = true → checkArgs schema args = Except.ok () := by
  intro args
  induction args with
  | nil => intro _; rfl
  | cons p rest ih =>
    intro h
    rw [List.all_cons, Bool.and_eq_true] at h
    obtain ⟨hp, hrest⟩ := h
    unfold validAt at hp
    cases hl : schemaLookup p.1 schema with
    | none =>
      simp only [checkArgs, hl]
      exact ih hrest
    | some expected =>
      rw [hl] at hp
      simp only at hp
      cases hne : normalizeUnit expected with
      | none => rw [hne] at hp; cases hna : normalizeUnit p.2.unit <;> rw [hna] at hp <;> simp at hp
      | some de =>
        cases hna : normalizeUnit p.2.unit with
        | none => rw [hne, hna] at hp; simp at hp
        | some da =>
          rw [hne, hna] at hp
          simp only [decide_eq_true_eq] at hp
          simp only [checkArgs, hl, hne, hna, if_pos hp]
          exact ih hrest

/-- `mismatchAt` on an argument the schema does not declare. -/
lemma mismatchAt_none {α : Type} {schema : UnitSchema} {p : String × Quantity α}
    (hl : schemaLookup p.1 schema = none) : mismatchAt schema p = false := by
  unfold mismatchAt
  rw [hl]

/-- `mismatchAt` on an argument the schema declares. -/
lemma mismatchAt_some {α : Type} {schema : UnitSchema} {p : String × Quantity α}
    {expected : String} (hl : schemaLookup p.1 schema = some expected) :
    mismatchAt schema p = !decide (normalizeUnit p.2.unit = normalizeUnit expected) := by
  unfold mismatchAt
  rw [hl]

/-- `unitsKnownAt` on an argument the schema declares. -/
lemma unitsKnownAt_some {α : Type} {schema : UnitSchema} {p : String × Quantity α}
    {expected : String} (hl : schemaLookup p.1 schema = some expected) :
    unitsKnownAt schema p =
      ((normalizeUnit expected).isSome && (normalizeUnit p.2.unit).isSome) := by
  unfold unitsKnownAt
  rw [hl]

/-- If every relevant unit expression parses and some supplied argument's unit
disagrees with the schema's expectation, validation aborts with a
`UnitMismatchError` that names a genuinely offending parameter, its actual
unit and its expected unit. -/
lemma checkArgs_mismatch {α : Type} (schema : UnitSchema) :
    ∀ args : List (String × Quantity α),
      args.all (unitsKnownAt schema) = true →
      args.any (mismatchAt schema) = true →
      ∃ n a expected,
        checkArgs schema args = Except.error (UnitError.unitMismatch n a expected) ∧
        schemaLookup n schema = some expected ∧
        (∃ v, (n, Quantity.mk v a) ∈ args) ∧
        normalizeUnit a ≠ normalizeUnit expected := by
  intro args
  induction args with
  | nil => intro _ h; simp at h
  | cons p rest ih =>
    intro hknown hmis
    rw [List.all_cons, Bool.and_eq_true] at hknown
    obtain ⟨hkp, hkrest⟩ := hknown
    rw [List.any_cons] at hmis
    cases hl : schemaLookup p.1 schema with
    | none =>
      rw [mismatchAt_none hl, Bool.false_or] at hmis
      obtain ⟨n, a, expected, hc, hs, ⟨v, hv⟩, hne⟩ := ih hkrest hmis
      refine ⟨n, a, expected, ?_, hs, ⟨v, List.mem_cons_of_mem p hv⟩, hne⟩
      simp only [checkArgs, hl]
      exact hc
    | some expected =>
      rw [unitsKnownAt_some hl, Bool.and_eq_true,
        Option.isSome_iff_exists, Option.isSome_iff_exists] at hkp
      obtain ⟨⟨de, hde⟩, ⟨da, hda⟩⟩ := hkp
      rw [mismatchAt_some hl] at hmis
      by_cases hend : da = de
      · have hmp : (!decide (normalizeUnit p.2.unit = normalizeUnit expected)) = false := by
          rw [hda, hde, hend]
          simp
        rw [hmp, Bool.false_or] at hmis
        obtain ⟨n, a, expected2, hc, hs, ⟨v, hv⟩, hne⟩ := ih hkrest hmis
        refine ⟨n, a, expected2, ?_, hs, ⟨v, List.mem_cons_of_mem p hv⟩, hne⟩
        simp only [checkArgs, hl, hde, hda, if_pos hend]
        exact hc
      · refine ⟨p.1, p.2.unit, expected, ?_, hl,
          ⟨p.2.magnitude, List.mem_cons_self p rest⟩, ?_⟩
        · simp only [checkArgs, hl, hde, hda, if_neg hend]
        · rw [hda, hde]
          exact fun hcontra => hend (Option.some.inj hcontra)

/-- The wrapper propagates a validation error unchanged, for every body. -/
lemma unitcheckCall_error {α : Type} (schema : UnitSchema) (resUnit : Option String)
    (f : List (String × α) → α) (args : List (String × Quantity α)) (e : UnitError)
    (h : checkArgs schema args = Except.error e) :
    unitcheckCall schema resUnit f args = Except.error e := by
  unfold unitcheckCall
  rw [h]

/-- When all argument checks pass and the declared result unit (if any)
parses, the wrapper applies the body to the bare magnitudes and tags the
result with the declared result unit. -/
lemma unitcheckCall_ok {α : Type} (schema : UnitSchema) (resUnit : Option String)
    (f : List (String × α) → α) (args : List (String × Quantity α))
    (hargs : args.all (validAt schema) = true)
    (hres : resUnitOk resUnit = true) :
    unitcheckCall schema resUnit f args = Except.ok ⟨f (bareArgs args), resUnit⟩ := by
  cases resUnit with
  | none =>
    simp only [unitcheckCall, checkArgs_ok_of_all_valid schema args hargs]
  | some u =>
    unfold resUnitOk at hres
    rw [Option.isSome_iff_exists] at hres
    obtain ⟨d, hd⟩ := hres
    simp only [unitcheckCall, checkArgs_ok_of_all_valid schema args hargs, hd]

/-- Whenever the wrapper returns at all, the returned magnitude is exactly the
body's value on the bare magnitudes — no coercion, no conversion. -/
lemma unitcheckCall_magnitude {α : Type} (schema : UnitSchema) (resUnit : Option String)
    (f : List (String × α) → α) (args : List (String × Quantity α))
    (r : CallResult α)
    (h : unitcheckCall schema resUnit f args = Except.ok r) :
    r.magnitude = f (bareArgs args) := by
  unfold unitcheckCall at h
  cases hc : checkArgs schema args with
  | error e => rw [hc] at h; exact absurd h (by simp)
  | ok u =>
    rw [hc] at h
    cases u
    cases resUnit with
    | none =>
      simp only at h
      have := Except.ok.inj h
      rw [← this]
    | some uu =>
      simp only at h
      cases hn : normalizeUnit uu with
      | none => rw [hn] at h; exact absurd h (by simp)
      | some d =>
        rw [hn] at h
        have := Except.ok.inj h
        rw [← this]

/-- Claim C1: a call in which some schema-declared argument carries a unit
dimensionally inconsistent with its declared expectation fails with a
`UnitMismatchError` identifying the offending parameter name, its actual unit
and the expected unit; and the underlying formula body is never executed: the
final conjunct fixes the wrapper's result to that same error for *every* body
`f` simultaneously, so the outcome is independent of the formula body and no
partial computation of it can be observed. -/
theorem unit_mismatch_fails_fast {α : Type} (schema : UnitSchema)
    (resUnit : Option String) (args : List (String × Quantity α))
    (hknown : args.all (unitsKnownAt schema) = true)
    (hmis : args.any (mismatchAt schema) = true) :
    ∃ n a expected,
      schemaLookup n schema = some expected ∧
      (∃ v, (n, Quantity.mk v a) ∈ args) ∧
      normalizeUnit a ≠ normalizeUnit expected ∧
      ∀ f : List (String × α) → α,
        unitcheckCall schema resUnit f args =
          Except.error (UnitError.unitMismatch n a expected) := by
  obtain ⟨n, a, expected, hc, hs, hv, hne⟩ := checkArgs_mismatch schema args hknown hmis
  exact ⟨n, a, expected, hs, hv, hne,
    fun f => unitcheckCall_error schema resUnit f args _ hc⟩

/-- Witness for C1: a schema declaring `x : "kg/s"` called with `x` tagged
`"m/s"` fails with `UnitMismatchError` naming `x`, for every body. -/
theorem unit_mismatch_fails_fast_witness :
    ∃ n a expected,
      schemaLookup n [("x", "kg/s")] = some expected ∧
      (∃ v, (n, Quantity.mk v a) ∈ [("x", Quantity.mk (1 : ℚ) "m/s")]) ∧
      normalizeUnit a ≠ normalizeUnit expected ∧
      ∀ f : List (String × ℚ) → ℚ,
        unitcheckCall [("x", "kg/s")] (some "m**2/s") f
            [("x", Quantity.mk 1 "m/s")] =
          Except.error (UnitError.unitMismatch n a expected) :=
  unit_mismatch_fails_fast [("x", "kg/s")] (some "m**2/s")
    [("x", Quantity.mk 1 "m/s")] (by decide) (by decide)

/-- Claim C2: unit-expression normalization is deterministic (it is the Lean
function `normalizeUnit`, so equal inputs give equal outputs by definition),
`"kg/m**3"` and `"kg*m**-3"` normalize to the identical representation (the
exponent vector mass¹·length⁻³), and the ratio `"kmol/kmol"` of identical base
units — as does `"dimensionless"` itself — normalizes to the dimensionless
zero vector. -/
theorem unit_normalization_canonical :
    normalizeUnit "kg/m**3" = normalizeUnit "kg*m**-3" ∧
    normalizeUnit "kg/m**3" = some ⟨1, -3, 0, 0, 0⟩ ∧
    normalizeUnit "kmol/kmol" = some dimZero ∧
    normalizeUnit "dimensionless" = some dimZero := by decide

/-- Claim C3: for every unit-checked formula and every call whose
schema-declared arguments all carry units matching the schema, the wrapped
call succeeds and returns exactly the body applied to the bare magnitudes
(first conjunct, for an arbitrary schema and body); in particular `q_liq_top`
called with correctly tagged arguments returns
`L_top / (rho_top_liq * L_septum)` (second conjunct). -/
theorem valid_call_transparent :
    (∀ (α : Type) (schema : UnitSchema) (resUnit : Option String)
        (f : List (String × α) → α) (args : List (String × Quantity α)),
        args.all (validAt schema) = true →
        resUnitOk resUnit = true →
        unitcheckCall schema resUnit f args =
          Except.ok ⟨f (bareArgs args), resUnit⟩) ∧
    (∀ rho_top_liq L_septum L_top : ℚ,
        q_liq_top_wrapped
          [("rho_top_liq", Quantity.mk rho_top_liq "kg/m**3"),
           ("L_septum", Quantity.mk L_septum "m"),
           ("L_top", Quantity.mk L_top "kg/s")] =
          Except.ok ⟨L_top / (rho_top_liq * L_septum), some "m**2/s"⟩) := by
  constructor
  · exact fun α schema ru f args h1 h2 => unitcheckCall_ok schema ru f args h1 h2
  · intro rho ls lt
    rfl

/-- Witness for C3: a concrete valid call of a schema declaring `x : "kg/s"`
with `x` tagged `"kg/s"` succeeds and returns the unwrapped body's value. -/
theorem valid_call_transparent_witness :
    unitcheckCall [("x", "kg/s")] (some "kg/s") (fun a => getArg a "x")
        [("x", Quantity.mk (5 : ℚ) "kg/s")] =
      Except.ok ⟨getArg (bareArgs [("x", Quantity.mk (5 : ℚ) "kg/s")]) "x",
        some "kg/s"⟩ :=
  valid_call_transparent.1 ℚ [("x", "kg/s")] (some "kg/s") (fun a => getArg a "x")
    [("x", Quantity.mk 5 "kg/s")] (by decide) (by decide)

/-- Claim C4: a legitimately incomplete schema does not make a call error.
`heigth_layer_top`'s schema names `sigma_mix` and `sigma_water`, which are not
parameters, and omits `m_coef`, `sigma_top` and `sigma_water_top`; a call with
all schema-checked arguments valid succeeds, and the arguments absent from the
schema pass through with *no* unit validation at all (here they are tagged
with a string that is not even a parsable unit).  `Re_reflux`'s schema omits
`res_unit`; a valid call succeeds and its result is returned unannotated
(`unit = none`) and unchecked. -/
theorem incomplete_schema_calls_succeed :
    (∀ q h w m mu s sw : ℝ,
        heigth_layer_top_wrapped
          [("q_liq_top", Quantity.mk q "m**2/s"),
           ("h_septum", Quantity.mk h "m"),
           ("w_oper", Quantity.mk w "m/s"),
           ("m_coef", Quantity.mk m "!!not-a-unit!!"),
           ("mu_liq_top", Quantity.mk mu "Pa/s"),
           ("sigma_top", Quantity.mk s "!!not-a-unit!!"),
           ("sigma_water_top", Quantity.mk sw "!!not-a-unit!!")] =
          Except.ok ⟨heigth_layer_top q h w m mu s sw, some "m"⟩) ∧
    (∀ w rho d mu : ℚ,
        Re_reflux_wrapped
          [("w_liq_real_enter_reflux", Quantity.mk w "m/s"),
           ("rho_reflux", Quantity.mk rho "kg/m**3"),
           ("d_enter_reflux_real", Quantity.mk d "m"),
           ("mu_reflux", Quantity.mk mu "Pa/s")] =
          Except.ok ⟨Re_reflux w rho d mu, none⟩) := by
  constructor
  · intro q h w m mu s sw
    rfl
  · intro w rho d mu
    rfl

/-- Claim C5: with `sigma_lc_top = 0.02` tagged `"N/m"`,
`sigma_hc_top = 0.03` tagged `"N/m"` and `x_aver_top_mass = 0.4` tagged
`"kmol/kmol"`, the wrapped `sigma_top` accepts the call (all declared units
match its schema) and returns exactly `0.026 = 0.02*0.4 + 0.03*0.6`. -/
theorem sigma_top_end_to_end :
    sigma_top_wrapped
      [("sigma_lc_top", Quantity.mk (2 / 100 : ℚ) "N/m"),
       ("sigma_hc_top", Quantity.mk (3 / 100) "N/m"),
       ("x_aver_top_mass", Quantity.mk (4 / 10) "kmol/kmol")] =
      Except.ok ⟨(26 / 1000 : ℚ), some "N/m"⟩ ∧
    (26 / 1000 : ℚ) = 0.026 ∧
    (0.026 : ℚ) = 0.02 * 0.4 + 0.03 * 0.6 := by
  refine ⟨?_, by norm_num, by norm_num⟩
  show (Except.ok ⟨sigma_top (2 / 100) (3 / 100) (4 / 10), some "N/m"⟩ :
    Except UnitError (CallResult ℚ)) = Except.ok ⟨26 / 1000, some "N/m"⟩
  simp only [Except.ok.injEq, CallResult.mk.injEq]
  refine ⟨?_, trivial⟩
  norm_num [sigma_top]

/-- Counterexample for C6: the decimal-comma typo in
`lyambda_rubbery_reflux` is *not* a syntax error.  Under Python's grammar the
commas parse as argument separators and tuple displays, so the body has
well-defined evaluation semantics; this theorem exhibits that evaluation at
the concrete input `Re_reflux = e_roughness_reflux = d_enter_reflux_real = 1`
(and an arbitrary interpretation of `np.log`): it runs up to the subterm
`(6, 81/Re_reflux) ** 0` and raises a runtime `TypeError` there.  A genuine
`SyntaxError` would instead make the whole module fail to import, and nothing
would evaluate at all. -/
theorem lyambda_rubbery_reflux_runtime_type_error :
    lyambda_rubbery_reflux_eval (fun _ => Except.ok (PyVal.num 0)) 1 1 1 =
      Except.error (PyErr.typeError "unsupported operand type(s) for ** or pow()") := by
  norm_num [lyambda_rubbery_reflux_eval, pyDiv, pyPow, bind, Except.bind]

/-- Claim C6 as amended: the body of `lyambda_rubbery_reflux`, with its
decimal-comma typo, is syntactically valid Python but raises a runtime error
at every call, whatever `np.log` does: a `TypeError` at the tuple power
`(6, 81/Re_reflux) ** 0` whenever both divisions' denominators
`d_enter_reflux_real` and `Re_reflux` are nonzero, a `ZeroDivisionError` at
one of the divisions otherwise — so for no input does it evaluate to a
result at all, numeric or otherwise. -/
theorem lyambda_rubbery_reflux_never_numeric :
    ∀ (npLogFn : List PyVal → Except PyErr PyVal)
      (Re_reflux e_roughness_reflux d_enter_reflux_real : ℚ),
      (d_enter_reflux_real ≠ 0 → Re_reflux ≠ 0 →
        lyambda_rubbery_reflux_eval npLogFn Re_reflux e_roughness_reflux
            d_enter_reflux_real =
          Except.error
            (PyErr.typeError "unsupported operand type(s) for ** or pow()")) ∧
      (d_enter_reflux_real = 0 ∨ Re_reflux = 0 →
        lyambda_rubbery_reflux_eval npLogFn Re_reflux e_roughness_reflux
            d_enter_reflux_real =
          Except.error (PyErr.zeroDivisionError "division by zero")) ∧
      ∀ v, lyambda_rubbery_reflux_eval npLogFn Re_reflux e_roughness_reflux
          d_enter_reflux_real ≠ Except.ok v := by
  intro npLogFn Re e d
  refine ⟨?_, ?_, ?_⟩
  · intro hd hRe
    norm_num [lyambda_rubbery_reflux_eval, pyDiv, pyPow, bind, Except.bind, hd, hRe]
  · intro h
    rcases h with hd | hRe
    · norm_num [lyambda_rubbery_reflux_eval, pyDiv, bind, Except.bind, hd]
    · by_cases hd : d = 0
      · norm_num [lyambda_rubbery_reflux_eval, pyDiv, bind, Except.bind, hd]
      · norm_num [lyambda_rubbery_reflux_eval, pyDiv, bind, Except.bind, hd, hRe]
  · intro v
    by_cases hd : d = 0
    · norm_num [lyambda_rubbery_reflux_eval, pyDiv, bind, Except.bind, hd]
      exact fun hc => Except.noConfusion hc
    · by_cases hRe : Re = 0
      · norm_num [lyambda_rubbery_reflux_eval, pyDiv, bind, Except.bind, hd, hRe]
        exact fun hc => Except.noConfusion hc
      · norm_num [lyambda_rubbery_reflux_eval, pyDiv, pyPow, bind, Except.bind, hd, hRe]
        exact fun hc => Except.noConfusion hc

/-- Witness for C6's amended theorem: at `Re_reflux = 2`,
`e_roughness_reflux = 3`, `d_enter_reflux_real = 5` (both denominators
nonzero) the evaluation raises the `TypeError` from the tuple power. -/
theorem lyambda_rubbery_reflux_never_numeric_witness :
    lyambda_rubbery_reflux_eval (fun _ => Except.ok (PyVal.num 0)) 2 3 5 =
      Except.error (PyErr.typeError "unsupported operand type(s) for ** or pow()") :=
  (lyambda_rubbery_reflux_never_numeric (fun _ => Except.ok (PyVal.num 0)) 2 3 5).1
    (by norm_num) (by norm_num)

/-- Claim C7: the wrapper never coerces or converts a value to the declared
unit: whenever a wrapped call returns, the returned magnitude is exactly the
body's value on the bare magnitudes (first conjunct); in particular
`Q_volume_reflux` returns exactly `reflux_mass / rho_reflux` unchanged even
though its schema declares `res_unit = "m**3/h"` (second conjunct — no factor
of 3600 appears). -/
theorem no_silent_coercion :
    (∀ (α : Type) (schema : UnitSchema) (resUnit : Option String)
        (f : List (String × α) → α) (args : List (String × Quantity α))
        (r : CallResult α),
        unitcheckCall schema resUnit f args = Except.ok r →
        r.magnitude = f (bareArgs args)) ∧
    (∀ reflux_mass rho_reflux : ℚ,
        Q_volume_reflux_wrapped
          [("reflux_mass", Quantity.mk reflux_mass "kg/s"),
           ("rho_reflux", Quantity.mk rho_reflux "kg/m**3")] =
          Except.ok ⟨reflux_mass / rho_reflux, some "m**3/h"⟩) := by
  constructor
  · exact fun α schema ru f args r h => unitcheckCall_magnitude schema ru f args r h
  · intro rm rho
    rfl

/-- Witness for C7: at the concrete call `reflux_mass = 2 kg/s`,
`rho_reflux = 3 kg/m**3`, the returned magnitude `2/3` is exactly the body's
value on the bare magnitudes. -/
theorem no_silent_coercion_witness :
    (CallResult.mk ((2 : ℚ) / 3) (some "m**3/h")).magnitude =
      Q_volume_reflux_body
        (bareArgs [("reflux_mass", Quantity.mk (2 : ℚ) "kg/s"),
                   ("rho_reflux", Quantity.mk 3 "kg/m**3")]) :=
  no_silent_coercion.1 ℚ Q_volume_reflux_schema (some "m**3/h")
    Q_volume_reflux_body
    [("reflux_mass", Quantity.mk 2 "kg/s"), ("rho_reflux", Quantity.mk 3 "kg/m**3")]
    (CallResult.mk (2 / 3) (some "m**3/h")) rfl

/-- Claim C8: every validated call completes.  The embedded formula bodies are
total Lean functions (fixed arithmetic, no recursion, no loops), and for every
input the wrapped calls of `heigth_max_suction` and `Diff_vapor` with
correctly tagged arguments return `Except.ok` with the body's value — they
never raise and never diverge. -/
theorem validated_calls_complete :
    (∀ Pa rho g0 Ps w hls hcav : ℚ,
        heigth_max_suction_wrapped
          [("Pa", Quantity.mk Pa "Pa"),
           ("rho_reflux_20", Quantity.mk rho "kg/m**3"),
           ("g", Quantity.mk g0 "m/s**2"),
           ("P_satur_vapor_reflux", Quantity.mk Ps "Pa"),
           ("w_liq_real_enter_reflux", Quantity.mk w "m/s"),
           ("hydraulic_losses_suct_reflux", Quantity.mk hls "m"),
           ("heigth_cavitation_reflux", Quantity.mk hcav "m")] =
          Except.ok ⟨heigth_max_suction Pa rho g0 Ps w hls hcav, some "m"⟩) ∧
    (∀ t P Ml Mh nul nuh : ℝ,
        Diff_vapor_wrapped
          [("t_boil", Quantity.mk t "K"),
           ("P_abs", Quantity.mk P "Pa"),
           ("Massl", Quantity.mk Ml "g/mol"),
           ("Massh", Quantity.mk Mh "g/mol"),
           ("nul", Quantity.mk nul "sm**3/mol"),
           ("nuh", Quantity.mk nuh "sm**3/mol")] =
          Except.ok ⟨Diff_vapor t P Ml Mh nul nuh, some "m**2/s"⟩) := by
  constructor
  · intro Pa rho g0 Ps w hls hcav
    rfl
  · intro t P Ml Mh nul nuh
    rfl

/-- Claim C9: for every `Fr ≥ 0`, `epsi_vapor_top Fr` (and the identical
`epsi_vapor_bot Fr`) lies in `[0, 1)`; consequently `1 - epsi_vapor` is
nonzero and the divisions in `h_bubble_top` and `h_bubble_bot` are genuine
divisions: multiplying back by `1 - epsi_vapor` recovers the numerator. -/
theorem epsi_vapor_in_unit_interval (Fr hl : ℝ) (hFr : 0 ≤ Fr) :
    0 ≤ epsi_vapor_top Fr ∧ epsi_vapor_top Fr < 1 ∧
    epsi_vapor_bot Fr = epsi_vapor_top Fr ∧
    1 - epsi_vapor_top Fr ≠ 0 ∧
    h_bubble_top hl (epsi_vapor_top Fr) * (1 - epsi_vapor_top Fr) = hl ∧
    h_bubble_bot hl (epsi_vapor_bot Fr) * (1 - epsi_vapor_bot Fr) = hl := by
  have ha : 0 ≤ Fr ^ (0.5 : ℝ) := Real.rpow_nonneg hFr _
  have hd : (0 : ℝ) < 1 + Fr ^ (0.5 : ℝ) := by linarith
  have h0 : 0 ≤ epsi_vapor_top Fr := div_nonneg ha (le_of_lt hd)
  have h1 : epsi_vapor_top Fr < 1 := by
    unfold epsi_vapor_top
    rw [div_lt_one hd]
    linarith
  have hne : 1 - epsi_vapor_top Fr ≠ 0 := sub_ne_zero.mpr (Ne.symm (ne_of_lt h1))
  refine ⟨h0, h1, rfl, hne, ?_, ?_⟩
  · unfold h_bubble_top
    exact div_mul_cancel₀ hl hne
  · unfold h_bubble_bot
    exact div_mul_cancel₀ hl hne

/-- Witness for C9: the bounds and the division identity at the concrete
inputs `Fr = 0`, `heigth_layer = 5`. -/
theorem epsi_vapor_in_unit_interval_witness :
    0 ≤ epsi_vapor_top 0 ∧ epsi_vapor_top 0 < 1 ∧
    epsi_vapor_bot 0 = epsi_vapor_top 0 ∧
    1 - epsi_vapor_top 0 ≠ 0 ∧
    h_bubble_top 5 (epsi_vapor_top 0) * (1 - epsi_vapor_top 0) = 5 ∧
    h_bubble_bot 5 (epsi_vapor_bot 0) * (1 - epsi_vapor_bot 0) = 5 :=
  epsi_vapor_in_unit_interval 0 5 le_rfl

/-- Claim C10: each top/bottom pair computes the same mathematical function of
its arguments: `sigma_top` and `sigma_bot`, `epsi_vapor_top` and
`epsi_vapor_bot`, `Fr_top` and `Fr_bot` are extensionally equal. -/
theorem top_bot_formula_pairs_equal :
    (∀ slc shc x : ℚ, sigma_top slc shc x = sigma_bot slc shc x) ∧
    (∀ Fr : ℝ, epsi_vapor_top Fr = epsi_vapor_bot Fr) ∧
    (∀ w hl : ℚ, Fr_top w hl = Fr_bot w hl) :=
  ⟨fun _ _ _ => rfl, fun _ => rfl, fun _ _ => rfl⟩
